import Mathlib

/-!
Verification development for the `vscode-stats-bar` extension.

The embedding covers `src/statsBar.ts` (display driver and per-kind
formatters) and `src/sysinfo.ts` (metric source adapters and GPU tool
output parsing).  JavaScript numbers are modelled as exact unnormalized
fractions (`Frac`, an integer numerator over a positive natural
denominator); `NaN`/`undefined` numeric results are modelled as
`Option Frac` with `none` standing for a missing number.
`toFixed`/`Math.round` are modelled with the ECMAScript rounding rules
on exact fractions (binary floating-point representation error and the
`Infinity` produced by division by zero are not modelled).  Strings are
manipulated through their character lists so that all definitions
reduce inside the kernel.

The helper module `src/utils.ts` (`formatBytes`, `formatTimes`,
`formatByDict`) and `src/setting.ts` are referenced by `statsBar.ts`
but their sources are not part of the repository snapshot; those
definitions are modelled from the specification and marked as such in
their doc comments.
-/

/-! ### JavaScript string primitives (character-list level) -/

/-- Whitespace trim on a character list, modelling `String.prototype.trim`. -/
def trimChars (cs : List Char) : List Char :=
  ((cs.dropWhile Char.isWhitespace).reverse.dropWhile Char.isWhitespace).reverse

/-- `startsWithL pre cs` is true when `pre` is an initial segment of `cs`. -/
def startsWithL : List Char → List Char → Bool
  | [], _ => true
  | _ :: _, [] => false
  | p :: ps, c :: cs => p == c && startsWithL ps cs

/-- Fuel-driven worker for `splitSeq`; the fuel dominates the length of the
remaining input, so the initial call with `cs.length` never exhausts it. -/
def splitSeqFuel (sep : List Char) : Nat → List Char → List Char → List (List Char)
  | 0, cs, acc => [acc.reverse ++ cs]
  | _ + 1, [], acc => [acc.reverse]
  | n + 1, c :: cs, acc =>
    if startsWithL sep (c :: cs) && !sep.isEmpty then
      acc.reverse :: splitSeqFuel sep n (List.drop sep.length (c :: cs)) []
    else
      splitSeqFuel sep n cs (c :: acc)

/-- `splitSeq sep cs` models `String.prototype.split` with a non-empty
string separator. -/
def splitSeq (sep : List Char) (cs : List Char) : List (List Char) :=
  splitSeqFuel sep cs.length cs []

/-- Substring test, modelling `String.prototype.includes`. -/
def containsSub : List Char → List Char → Bool
  | [], pat => pat.isEmpty
  | c :: cs, pat => startsWithL pat (c :: cs) || containsSub cs pat

/-! ### JavaScript numbers as exact unnormalized fractions -/

/-- An exact JavaScript number: integer numerator over a natural
denominator.  Every operation below keeps the denominator positive; no
gcd normalization is performed, so all arithmetic is plain structural
integer arithmetic and reduces inside the kernel. -/
structure Frac where
  num : ℤ
  den : ℕ
deriving DecidableEq, Repr

/-- Embed an integer. -/
def intFrac (n : ℤ) : Frac := ⟨n, 1⟩

/-- Embed a natural number. -/
def natFrac (n : ℕ) : Frac := ⟨(n : ℤ), 1⟩

instance : OfNat Frac n := ⟨natFrac n⟩

def Frac.mul (a b : Frac) : Frac := ⟨a.num * b.num, a.den * b.den⟩

def Frac.add (a b : Frac) : Frac := ⟨a.num * (b.den : ℤ) + b.num * (a.den : ℤ), a.den * b.den⟩

def Frac.neg (a : Frac) : Frac := ⟨-a.num, a.den⟩

/-- Exact division.  Division by an exact zero would be `Infinity`/`NaN`
in JavaScript; here it yields a zero denominator whose floor is `0`, a
corner none of the verified paths reach. -/
def Frac.div (a b : Frac) : Frac :=
  if b.num < 0 then ⟨-(a.num * (b.den : ℤ)), a.den * b.num.natAbs⟩
  else ⟨a.num * (b.den : ℤ), a.den * b.num.natAbs⟩

instance : Mul Frac := ⟨Frac.mul⟩
instance : Add Frac := ⟨Frac.add⟩
instance : Neg Frac := ⟨Frac.neg⟩
instance : Div Frac := ⟨Frac.div⟩

/-- Strict comparison (denominators are nonnegative). -/
def Frac.blt (a b : Frac) : Bool := a.num * (b.den : ℤ) < b.num * (a.den : ℤ)

/-- Sign test used to model `x < 0` on a JavaScript number. -/
def Frac.isNeg (a : Frac) : Bool := a.num < 0

/-- Floor to an integer (`Int.fdiv` floors because the denominator is
nonnegative). -/
def Frac.floor (a : Frac) : ℤ := Int.fdiv a.num (a.den : ℤ)

/-- The fraction `1/2`. -/
def halfFrac : Frac := ⟨1, 2⟩

/-- The fraction `10 ^ d`. -/
def tenPow (d : ℕ) : Frac := ⟨(10 ^ d : ℕ), 1⟩

/-- Value of a digit list, most significant digit first. -/
def digitsToNat (ds : List Char) : ℕ :=
  ds.foldl (fun acc c => acc * 10 + (c.toNat - '0'.toNat)) 0

/-- Decimal-literal parser used to model `Number(...)` conversion on the
tool outputs: an optional sign, then digits with an optional fractional
part.  Exponent, hexadecimal and `Infinity` forms of the JavaScript
grammar are not modelled (the GPU tools never emit them); any other
shape is `NaN`, i.e. `none`. -/
def parseDecL (cs : List Char) : Option Frac :=
  let signAndRest : Bool × List Char :=
    match cs with
    | '-' :: r => (true, r)
    | '+' :: r => (false, r)
    | r => (false, r)
  let ip := signAndRest.2.takeWhile Char.isDigit
  let r1 := signAndRest.2.dropWhile Char.isDigit
  let signed : Frac → Frac := fun f => if signAndRest.1 then -f else f
  match r1 with
  | [] => if ip.isEmpty then none else some (signed (natFrac (digitsToNat ip)))
  | '.' :: r2 =>
    let fp := r2.takeWhile Char.isDigit
    let r3 := r2.dropWhile Char.isDigit
    if r3.isEmpty && !(ip.isEmpty && fp.isEmpty) then
      some (signed ⟨(digitsToNat ip : ℤ) * (10 ^ fp.length : ℕ) + (digitsToNat fp : ℤ), 10 ^ fp.length⟩)
    else none
  | _ => none

/-- `Number(s)` on a string, with `none` standing for `NaN`: surrounding
whitespace is ignored and the empty string converts to `0`. -/
def jsNumberL (cs : List Char) : Option Frac :=
  let t := trimChars cs
  if t.isEmpty then some 0 else parseDecL t

/-- The integer chosen by `Number.prototype.toFixed(d)`: the nearest
multiple of `10⁻ᵈ`, ties picked away from zero (ECMAScript picks the
larger magnitude after splitting off the sign). -/
def jsToFixedInt (q : Frac) (d : ℕ) : ℤ :=
  if q.isNeg then -(Frac.floor ((-q) * tenPow d + halfFrac))
  else Frac.floor (q * tenPow d + halfFrac)

/-- The numeric value denoted by the string `q.toFixed(d)`. -/
def roundDec (q : Frac) (d : ℕ) : Frac :=
  ⟨jsToFixedInt q d, 10 ^ d⟩

/-- `Math.round`: floor of `q + 1/2`, ties going toward `+∞`. -/
def jsMathRound (q : Frac) : ℤ :=
  Frac.floor (q + halfFrac)

/-- Left-pad a digit string with zeros to width `d`. -/
def padZeros (s : String) (d : ℕ) : String :=
  String.mk (List.replicate (d - s.length) '0') ++ s

/-- Decimal rendering of `q.toFixed(d)`. -/
def qToFixed (q : Frac) (d : ℕ) : String :=
  let n := jsToFixedInt q d
  let m := n.natAbs
  let sign := if n < 0 then "-" else ""
  if d = 0 then sign ++ Nat.repr m
  else sign ++ Nat.repr (m / 10 ^ d) ++ "." ++ padZeros (Nat.repr (m % 10 ^ d)) d

/-! ### Template model and `formatByDict`

The user-configured format string is modelled as an already-lexed list of
segments: literal text and named placeholders.  The concrete surface
syntax of a placeholder in the configuration string is abstracted; an
unsubstituted placeholder renders as its name between braces. -/

/-- One segment of a format template: literal text or a named placeholder. -/
inductive TmplSeg where
  | lit (s : String)
  | ph (name : String)
deriving DecidableEq, Repr

/-- A lexed format template. -/
abbrev Tmpl := List TmplSeg

/-- A value bound to a placeholder: the TypeScript dictionaries hold both
strings and numbers, and a number may be `NaN` (`none`). -/
inductive DictVal where
  | vStr (s : String)
  | vNum (n : Option Frac)
deriving DecidableEq, Repr

/-- String coercion of a dictionary value when substituted into the
template.  `NaN` prints as `"NaN"`; integer-valued numbers print as
integers; the non-integer fallback uses two decimals (the claims only
ever substitute strings, integers and `NaN`). -/
def renderVal : DictVal → String
  | .vStr s => s
  | .vNum none => "NaN"
  | .vNum (some q) =>
    if q.num.emod (q.den : ℤ) = 0 then
      (if q.isNeg then "-" ++ Nat.repr (Int.fdiv q.num (q.den : ℤ)).natAbs
       else Nat.repr (Int.fdiv q.num (q.den : ℤ)).natAbs)
    else qToFixed q 2

/-- Modelled from the spec: `formatByDict` from the missing `src/utils.ts`
— "a shared template-substitution helper that replaces named placeholders
in a user-configured format string with computed values; unmatched
placeholders are left verbatim".  Substituted placeholders become literal
text; unmatched ones stay placeholder segments. -/
def formatByDict (tmpl : Tmpl) (dict : List (String × DictVal)) : Tmpl :=
  tmpl.map fun seg =>
    match seg with
    | .lit s => .lit s
    | .ph n =>
      match dict.lookup n with
      | some v => .lit (renderVal v)
      | none => .ph n

/-- Surface text of a segment; an unsubstituted placeholder keeps its
verbatim form. -/
def segRender : TmplSeg → String
  | .lit s => s
  | .ph n => "\x7b" ++ n ++ "\x7d"

/-- Final string produced from a substituted template. -/
def renderTemplate (t : Tmpl) : String :=
  String.join (t.map segRender)

/-! ### `src/sysinfo.ts`: metric source adapters

Each TypeScript adapter wraps its underlying library/OS call in
`try { ... } catch (err) { }`, returning `undefined` on a thrown
error.  The underlying call is modelled as an explicit outcome
parameter of type `Except Unit α` (`.error` = the call threw), and an
adapter is the total function from that outcome to `Option reading`
(`none` = `undefined`/`null`). -/

/-- Result shape of `si.currentLoad()` (only the field the adapter reads). -/
structure CpuLoadRes where
  currentLoad : Frac
deriving DecidableEq, Repr

/-- Result shape of one entry of `si.networkStats(iface)`. -/
structure NetStat where
  tx_sec : Frac
  rx_sec : Frac
deriving DecidableEq, Repr

/-- Modelled from the spec: result shape of `getMacOsMemoryUsageInfo`
from the missing `src/memory.ts` — on the Darwin family the adapter
"reads platform-specific memory-pressure counters and computes
`active`/`used`/`pressurePercent`/`usagePercent`". -/
structure MacMemRes where
  total : Frac
  used : Frac
  active : Frac
  pressurePercent : Frac
  usagePercent : Frac
deriving DecidableEq, Repr

/-- Result shape of `si.mem()` (only the fields the adapter reads). -/
structure SiMemRes where
  total : Frac
  used : Frac
  active : Frac
deriving DecidableEq, Repr

/-- Captured output of an `execPromise` call. -/
structure ExecRes where
  stdout : String
  stderr : String
deriving DecidableEq, Repr

/-- One GPU reading.  Fields are `Option Frac` because the NVIDIA CSV
path can produce `NaN`/`undefined` components (`none`). -/
structure GpuInfo where
  totalMemory : Option Frac
  usedMemory : Option Frac
  gpuUtilization : Option Frac
deriving DecidableEq, Repr

/-- The memory reading consumed by the formatter; `pressurePercent` is
only present on the Darwin path. -/
structure MemInfo where
  total : Frac
  used : Frac
  active : Frac
  pressurePercent : Option Frac
deriving DecidableEq, Repr

/-- `getCpuLoad`: `si.currentLoad().currentLoad`, errors swallowed. -/
def getCpuLoad (o : Except Unit CpuLoadRes) : Option Frac :=
  match o with
  | .ok r => some r.currentLoad
  | .error _ => none

/-- `getLoadavg`: `os.loadavg()`, errors swallowed. -/
def getLoadavg (o : Except Unit (List Frac)) : Option (List Frac) :=
  match o with
  | .ok l => some l
  | .error _ => none

/-- `getNetworkSpeed`: `si.networkStats(defaultInterface)[0]`, read as
`{up: tx_sec, down: rx_sec}`.  The two awaited library calls are fused
into one outcome; an empty stats list makes the field access throw,
which the surrounding `catch` swallows. -/
def getNetworkSpeed (o : Except Unit (List NetStat)) : Option (Frac × Frac) :=
  match o with
  | .ok (c :: _) => some (c.tx_sec, c.rx_sec)
  | .ok [] => none
  | .error _ => none

/-- `getUpTime`: `os.uptime()`, errors swallowed. -/
def getUpTime (o : Except Unit Frac) : Option Frac :=
  match o with
  | .ok t => some t
  | .error _ => none

/-- `getMemoryUsage`: on Darwin the fields come from
`getMacOsMemoryUsageInfo` (including `pressurePercent`), elsewhere from
`si.mem()` (no pressure field); errors swallowed. -/
def getMemoryUsage (isDarwin : Bool) (oMac : Except Unit MacMemRes)
    (oSi : Except Unit SiMemRes) : Option MemInfo :=
  if isDarwin then
    match oMac with
    | .ok r => some ⟨r.total, r.used, r.active, some r.pressurePercent⟩
    | .error _ => none
  else
    match oSi with
    | .ok r => some ⟨r.total, r.used, r.active, none⟩
    | .error _ => none

/-- One line of `nvidia-smi --query-gpu=memory.total,memory.used,utilization.gpu
--format=csv,noheader,nounits`: split on `", "`, each field through
`Number`, destructured as `[totalMemory, usedMemory, gpuUtilization]`.
A missing field is `undefined` and a malformed field is `NaN`, both
`none`; the line itself is always kept. -/
def parseX86Line (cs : List Char) : GpuInfo :=
  let fields := (splitSeq [',', ' '] cs).map jsNumberL
  ⟨(fields.get? 0).bind id, (fields.get? 1).bind id, (fields.get? 2).bind id⟩

/-- `getX86GpuInfo`: `null` on a thrown exec error or nonempty stderr,
otherwise one `GpuInfo` per line of the trimmed stdout. -/
def getX86GpuInfo (o : Except Unit ExecRes) : Option (List GpuInfo) :=
  match o with
  | .error _ => none
  | .ok r =>
    if r.stderr ≠ "" then none
    else some ((splitSeq ['\n'] (trimChars r.stdout.toList)).map parseX86Line)

/-- Attempt to match the tegrastats grammar `(\d+)\/(\d+)\s+MB\s+(\d+)%`
at the head of the character list, returning `(used, total, percent)`. -/
def tryTegraAt (cs : List Char) : Option (ℕ × ℕ × ℕ) :=
  let d1 := cs.takeWhile Char.isDigit
  let r1 := cs.dropWhile Char.isDigit
  if d1.isEmpty then none else
  match r1 with
  | '/' :: r2 =>
    let d2 := r2.takeWhile Char.isDigit
    let r3 := r2.dropWhile Char.isDigit
    if d2.isEmpty then none else
    let w1 := r3.takeWhile Char.isWhitespace
    let r4 := r3.dropWhile Char.isWhitespace
    if w1.isEmpty then none else
    match r4 with
    | 'M' :: 'B' :: r5 =>
      let w2 := r5.takeWhile Char.isWhitespace
      let r6 := r5.dropWhile Char.isWhitespace
      if w2.isEmpty then none else
      let d3 := r6.takeWhile Char.isDigit
      let r7 := r6.dropWhile Char.isDigit
      if d3.isEmpty then none else
      match r7 with
      | '%' :: _ => some (digitsToNat d1, digitsToNat d2, digitsToNat d3)
      | _ => none
    | _ => none
  | _ => none

/-- Leftmost match of the tegrastats regular expression
`/(\d+)\/(\d+)\s+MB\s+(\d+)%/` in a line. -/
def tegraSearch : List Char → Option (ℕ × ℕ × ℕ)
  | [] => none
  | c :: rest =>
    match tryTegraAt (c :: rest) with
    | some r => some r
    | none => tegraSearch rest

/-- One line of `tegrastats` output: a matching line yields a reading
(`match[1]` = used MB, `match[2]` = total MB, `match[3]` = percent), a
non-matching line yields `null`. -/
def tegraParseLine (cs : List Char) : Option GpuInfo :=
  (tegraSearch cs).map fun r =>
    ⟨some (natFrac r.2.1), some (natFrac r.1), some (natFrac r.2.2)⟩

/-- `getTegraInfo`: `null` on a thrown exec error or nonempty stderr,
otherwise the per-line readings with the `null` entries of non-matching
lines filtered out (`.filter(Boolean)`). -/
def getTegraInfo (o : Except Unit ExecRes) : Option (List GpuInfo) :=
  match o with
  | .error _ => none
  | .ok r =>
    if r.stderr ≠ "" then none
    else some (((splitSeq ['\n'] (trimChars r.stdout.toList)).map tegraParseLine).reduceOption)

/-- `detectPlatform`: dispatch on the trimmed output of `uname -m` —
`x86_64`/`i686` to the NVIDIA path, an architecture containing `tegra`
to the tegrastats path, anything else (or a thrown error) to `null`. -/
def detectPlatform (oUname : Except Unit String) (oX86 oTegra : Except Unit ExecRes) :
    Option (List GpuInfo) :=
  match oUname with
  | .error _ => none
  | .ok out =>
    let arch := trimChars out.toList
    if arch = "x86_64".toList ∨ arch = "i686".toList then getX86GpuInfo oX86
    else if containsSub arch "tegra".toList then getTegraInfo oTegra
    else none

/-- `getGpuLoad`: `detectPlatform` under one more `try`/`catch` (the
inner function already swallows every failure). -/
def getGpuLoad (oUname : Except Unit String) (oX86 oTegra : Except Unit ExecRes) :
    Option (List GpuInfo) :=
  detectPlatform oUname oX86 oTegra

/-! ### `src/statsBar.ts`: metric kinds, formatters and the display driver -/

/-- The enumerated metric kinds (`StatsModule = keyof typeof sysinfoData`). -/
inductive StatsModule where
  | cpuLoad
  | loadavg
  | memoUsage
  | networkSpeed
  | uptime
  | gpuLoad
deriving DecidableEq, Repr

/-- `AllSysModules`: the keys of `sysinfoData` in declaration order. -/
def AllSysModules : List StatsModule :=
  [.cpuLoad, .loadavg, .networkSpeed, .memoUsage, .uptime, .gpuLoad]

/-- `StatsModuleNameMap`: human-readable default tooltip per kind. -/
def StatsModuleNameMap : StatsModule → String
  | .cpuLoad => "CpuLoad"
  | .loadavg => "Loadavg"
  | .networkSpeed => "NetworkSpeed"
  | .memoUsage => "MemoryUsage"
  | .uptime => "Uptime"
  | .gpuLoad => "GpuLoad"

/-- The raw value produced by a source adapter, shape varying by kind. -/
inductive Reading where
  | num (q : Frac)
  | avg (l : List (Option Frac))
  | mem (m : MemInfo)
  | net (up down : Frac)
  | gpu (g : List GpuInfo)
deriving DecidableEq, Repr

/-- The configuration the driver reads: the global enable flag, the
ordered list of enabled kinds, and one format template per kind.
Display location, priority and the refresh interval only parametrize
the host widget and timer and are abstracted away. -/
structure Settings where
  allEnabled : Bool
  curModules : List StatsModule
  cpuLoadFormat : Tmpl
  loadavgFormat : Tmpl
  memoUsageFormat : Tmpl
  networkSpeedFormat : Tmpl
  uptimeFormat : Tmpl
  gpuLoadFormat : Tmpl
deriving Repr

/-- The `{module, text, tooltip}` record built by `formatRes`. -/
structure FmtData where
  module : StatsModule
  text : String
  tooltip : String
deriving DecidableEq, Repr

/-! ### `src/utils.ts` helpers modelled from the spec -/

/-- Result record of `formatBytes`: the rendered number, its exact
value, and the unit label. -/
structure FmtBytes where
  data : String
  value : Frac
  unit : String
deriving DecidableEq, Repr

/-- Auto-scaling worker: divide by 1024 while a larger unit remains and
the value is at least 1024. -/
def pickUnit (q : Frac) : List String → (Frac × String)
  | [] => (q, "")
  | [u] => (q, u)
  | u :: u2 :: us =>
    if Frac.blt q 1024 then (q, u) else pickUnit (q / 1024) (u2 :: us)

/-- Modelled from the spec: `formatBytes` from the missing
`src/utils.ts` — with a custom size it converts to that fixed unit
("convert used/total bytes to gibibytes (base 1024³) with 2 decimals"),
otherwise it converts "up/down byte rates to human-scaled units
(auto-selecting B/KB/MB/... by magnitude)". -/
def formatBytes (q : Frac) (d : ℕ) (customSize : Option Frac) : FmtBytes :=
  match customSize with
  | some c => ⟨qToFixed (q / c) d, roundDec (q / c) d, "GB"⟩
  | none =>
    let scaled := pickUnit q ["B", "KB", "MB", "GB", "TB", "PB"]
    ⟨qToFixed scaled.1 d, roundDec scaled.1 d, scaled.2⟩

/-- Modelled from the spec: `formatTimes` from the missing
`src/utils.ts` — "decompose seconds into days/hours/minutes" (remainder
seconds dropped), returned as `[days, hours, minutes]`. -/
def formatTimes (s : Frac) : ℤ × ℤ × ℤ :=
  ((s / 86400).floor, (s / 3600).floor % 24, (s / 60).floor % 60)

/-! ### Per-kind formatters -/

/-- `formatCpuLoad`: placeholder `percent` is the load with no decimals;
a falsy reading (`undefined` or an exact 0) yields the placeholder. -/
def formatCpuLoad (tmpl : Tmpl) (res : Option Frac) : String :=
  match res with
  | some q =>
    if q = 0 then "-"
    else renderTemplate (formatByDict tmpl [("percent", .vStr (qToFixed q 0))])
  | none => "-"

/-- The dictionary built by `formatLoadavg`: entries `1`/`5`/`15` are the
two-decimal renderings, a missing component defaulting to the number 0. -/
def loadavgDict (l : List (Option Frac)) : List (String × DictVal) :=
  let entry : ℕ → DictVal := fun i =>
    match (l.get? i).bind id with
    | some q => .vStr (qToFixed q 2)
    | none => .vNum (some 0)
  [("1", entry 0), ("5", entry 1), ("15", entry 2)]

/-- `formatLoadavg` (an array reading is always truthy). -/
def formatLoadavg (tmpl : Tmpl) (res : Option (List (Option Frac))) : String :=
  match res with
  | some l => renderTemplate (formatByDict tmpl (loadavgDict l))
  | none => "-"

/-- The dictionary built by `formatMemoUsage`: `used`/`total` through
`formatBytes` with the fixed size 1024³ and 2 decimals (on Darwin the
`used` counter, elsewhere `active`), `percent` recomputed from the two
rendered values, `pressurePercent` from the optional pressure ratio. -/
def memoUsageDict (isDarwin : Bool) (r : MemInfo) : List (String × DictVal) :=
  let customSize : Frac := natFrac (1024 * 1024 * 1024)
  let used := formatBytes (if isDarwin then r.used else r.active) 2 (some customSize)
  let total := formatBytes r.total 2 (some customSize)
  let percent := qToFixed (used.value / total.value * 100) 0
  let pressurePercent := qToFixed ((r.pressurePercent.getD 0) * 100) 0
  [("used", .vStr used.data), ("total", .vStr total.data), ("unit", .vStr "GB"),
   ("percent", .vStr percent), ("pressurePercent", .vStr pressurePercent)]

/-- `formatMemoUsage`. -/
def formatMemoUsage (isDarwin : Bool) (tmpl : Tmpl) (res : Option MemInfo) : String :=
  match res with
  | some r => renderTemplate (formatByDict tmpl (memoUsageDict isDarwin r))
  | none => "-"

/-- The dictionary built by `formatNetworkSpeed`. -/
def networkSpeedDict (up down : Frac) : List (String × DictVal) :=
  let u := formatBytes up 2 none
  let d := formatBytes down 2 none
  [("up", .vStr u.data), ("up-unit", .vStr (u.unit ++ "/s")),
   ("down", .vStr d.data), ("down-unit", .vStr (d.unit ++ "/s"))]

/-- `formatNetworkSpeed`. -/
def formatNetworkSpeed (tmpl : Tmpl) (res : Option (Frac × Frac)) : String :=
  match res with
  | some p => renderTemplate (formatByDict tmpl (networkSpeedDict p.1 p.2))
  | none => "-"

/-- The dictionary built by `formatUptime` from `formatTimes`. -/
def uptimeDict (s : Frac) : List (String × DictVal) :=
  let t := formatTimes s
  [("days", .vNum (some (intFrac t.1))), ("hours", .vNum (some (intFrac t.2.1))),
   ("minutes", .vNum (some (intFrac t.2.2)))]

/-- `formatUptime`: a falsy reading (`undefined` or an exact 0 seconds)
yields the placeholder. -/
def formatUptime (tmpl : Tmpl) (res : Option Frac) : String :=
  match res with
  | some q =>
    if q = 0 then "-"
    else renderTemplate (formatByDict tmpl (uptimeDict q))
  | none => "-"

/-- The dictionary built by `formatGpuLoad` from the first GPU:
`percent` is the integer-rounded utilization (a number), `used`/`total`
are the memory values divided by 1024 with 2 decimals, `unit` is GB.
A `NaN` component stays `NaN`. -/
def gpuDict (g : GpuInfo) : List (String × DictVal) :=
  [("percent", .vNum (g.gpuUtilization.map fun q => intFrac (jsMathRound q))),
   ("unit", .vStr "GB"),
   ("used", .vStr (match g.usedMemory.map (fun q => q / 1024) with
     | some q => qToFixed q 2
     | none => "NaN")),
   ("total", .vStr (match g.totalMemory.map (fun q => q / 1024) with
     | some q => qToFixed q 2
     | none => "NaN"))]

/-- `formatGpuLoad`: a missing or empty GPU list yields the placeholder,
otherwise only the first GPU is used. -/
def formatGpuLoad (tmpl : Tmpl) (res : Option (List GpuInfo)) : String :=
  match res with
  | some (g :: _) => renderTemplate (formatByDict tmpl (gpuDict g))
  | _ => "-"

/-- `formatRes`: dispatch into the per-kind formatter; the result record
always carries the module tag and an empty tooltip, with text defaulting
to the placeholder. -/
def formatRes (s : Settings) (isDarwin : Bool) (m : StatsModule) (raw : Option Reading) : FmtData :=
  let text :=
    match m, raw with
    | .cpuLoad, some (.num q) => formatCpuLoad s.cpuLoadFormat (some q)
    | .cpuLoad, _ => formatCpuLoad s.cpuLoadFormat none
    | .loadavg, some (.avg l) => formatLoadavg s.loadavgFormat (some l)
    | .loadavg, _ => formatLoadavg s.loadavgFormat none
    | .memoUsage, some (.mem r) => formatMemoUsage isDarwin s.memoUsageFormat (some r)
    | .memoUsage, _ => formatMemoUsage isDarwin s.memoUsageFormat none
    | .networkSpeed, some (.net up down) => formatNetworkSpeed s.networkSpeedFormat (some (up, down))
    | .networkSpeed, _ => formatNetworkSpeed s.networkSpeedFormat none
    | .uptime, some (.num q) => formatUptime s.uptimeFormat (some q)
    | .uptime, _ => formatUptime s.uptimeFormat none
    | .gpuLoad, some (.gpu g) => formatGpuLoad s.gpuLoadFormat (some g)
    | .gpuLoad, _ => formatGpuLoad s.gpuLoadFormat none
  ⟨m, text, ""⟩

/-! ### Display driver state machine -/

/-- One status bar item: mutable text, tooltip, visibility, plus a
disposed flag (a disposed item is gone from the display even though the
`statusItems` array may still reference it). -/
structure Slot where
  text : String
  tooltip : String
  visible : Bool
  disposed : Bool
deriving DecidableEq, Repr

/-- A freshly created status bar item: empty, hidden, live. -/
def newSlot : Slot := ⟨"", "", false, false⟩

/-- Driver state: the `statusItems` array and whether the repeating
timer is armed. -/
structure BarState where
  statusItems : List Slot
  timerActive : Bool
deriving DecidableEq, Repr

/-- The per-tick outcomes of every underlying library/OS call, one
field per call site in `src/sysinfo.ts` (`.error` = the call threw). -/
structure Outcomes where
  cpu : Except Unit CpuLoadRes
  load : Except Unit (List Frac)
  net : Except Unit (List NetStat)
  memMac : Except Unit MacMemRes
  memSi : Except Unit SiMemRes
  uptime : Except Unit Frac
  uname : Except Unit String
  x86 : Except Unit ExecRes
  tegra : Except Unit ExecRes
deriving Repr

/-- `sysinfoData[module]()`: run the kind's adapter on this tick's
outcomes. -/
def adapterRun (isDarwin : Bool) (o : Outcomes) : StatsModule → Option Reading
  | .cpuLoad => (getCpuLoad o.cpu).map .num
  | .loadavg => (getLoadavg o.load).map fun l => .avg (l.map some)
  | .memoUsage => (getMemoryUsage isDarwin o.memMac o.memSi).map .mem
  | .networkSpeed => (getNetworkSpeed o.net).map fun p => .net p.1 p.2
  | .uptime => (getUpTime o.uptime).map .num
  | .gpuLoad => (getGpuLoad o.uname o.x86 o.tegra).map .gpu

/-- The settled `Promise.all` array of one tick: for each enabled kind
in configured order, the formatted result of its adapter's reading. -/
def tickResults (s : Settings) (isDarwin : Bool) (o : Outcomes) : List FmtData :=
  s.curModules.map fun m => formatRes s isDarwin m (adapterRun isDarwin o m)

/-- Applying one formatted result to its slot: the placeholder leaves
the slot untouched, anything else writes text, writes the tooltip
(defaulting to the kind name) and shows the item. -/
def applySlot (sl : Slot) (r : FmtData) : Slot :=
  if r.text = "-" then sl
  else { sl with
    text := r.text,
    tooltip := if r.tooltip = "" then StatsModuleNameMap r.module else r.tooltip,
    visible := true }

/-- Positional write-back of the results array onto the slots array
(`res.forEach((data, index) => ...)`); a slot beyond the results keeps
its state. -/
def applyResults : List Slot → List FmtData → List Slot
  | [], _ => []
  | sl :: sls, [] => sl :: sls
  | sl :: sls, r :: rs => applySlot sl r :: applyResults sls rs

/-- `getSysInfo`: one tick — fetch all enabled kinds, format, write back
positionally. -/
def getSysInfo (s : Settings) (isDarwin : Bool) (o : Outcomes) (st : BarState) : BarState :=
  { st with statusItems := applyResults st.statusItems (tickResults s isDarwin o) }

/-- `start`: dispose any existing items (the array keeps the dead
references); if the global flag is off or no kind is enabled, stop
there; otherwise create one fresh item per enabled kind, arm the timer
(`update`) and run the immediate first tick. -/
def start (s : Settings) (isDarwin : Bool) (o : Outcomes) (st : BarState) : BarState :=
  let disposedSt : BarState :=
    { st with statusItems := st.statusItems.map fun sl => { sl with disposed := true } }
  if s.allEnabled = false ∨ s.curModules = [] then disposedSt
  else
    getSysInfo s isDarwin o
      { statusItems := s.curModules.map fun _ => newSlot, timerActive := true }

/-- `init`: the state of a fresh activation (no items, no timer) run
through `start`. -/
def initDriver (s : Settings) (isDarwin : Bool) (o : Outcomes) : BarState :=
  start s isDarwin o ⟨[], false⟩

/-- `cancelUpdate`: clear the repeating timer (the `siRelease` branch
touches only the external library). -/
def cancelUpdate (st : BarState) : BarState :=
  { st with timerActive := false }

/-- `onSettingUpdate`: tear down the timer, then re-evaluate from the
top. -/
def onSettingUpdate (s : Settings) (isDarwin : Bool) (o : Outcomes) (st : BarState) : BarState :=
  start s isDarwin o (cancelUpdate st)

/-- The display slots actually present on screen: the non-disposed
items. -/
def liveSlots (st : BarState) : List Slot :=
  st.statusItems.filter fun sl => !sl.disposed

/-- Whether a segment is literal text. -/
def TmplSeg.isLit : TmplSeg → Bool
  | .lit _ => true
  | .ph _ => false

/-- Whether an underlying call threw. -/
def isErr {α : Type} : Except Unit α → Bool
  | .error _ => true
  | .ok _ => false

/-- The outcome field that makes the given kind's adapter fail when it
is an error. -/
def adapterErrored (isDarwin : Bool) (o : Outcomes) : StatsModule → Bool
  | .cpuLoad => isErr o.cpu
  | .loadavg => isErr o.load
  | .memoUsage => if isDarwin then isErr o.memMac else isErr o.memSi
  | .networkSpeed => isErr o.net
  | .uptime => isErr o.uptime
  | .gpuLoad => isErr o.uname

/-! ### Helper lemmas -/

theorem tickResults_length (s : Settings) (isDarwin : Bool) (o : Outcomes) :
    (tickResults s isDarwin o).length = s.curModules.length :=
  List.length_map _ _

theorem tickResults_getElem? (s : Settings) (isDarwin : Bool) (o : Outcomes) (i : ℕ) :
    (tickResults s isDarwin o)[i]? =
      (s.curModules[i]?).map fun m => formatRes s isDarwin m (adapterRun isDarwin o m) :=
  List.getElem?_map _ _ _

theorem applyResults_length (slots : List Slot) (res : List FmtData) :
    (applyResults slots res).length = slots.length := by
  induction slots generalizing res with
  | nil => simp [applyResults]
  | cons sl sls ih =>
    cases res with
    | nil => simp [applyResults]
    | cons r rs => simp [applyResults, ih]

theorem applyResults_getElem? (slots : List Slot) (res : List FmtData) (i : ℕ) :
    (applyResults slots res)[i]? =
      (slots[i]?).map fun sl =>
        match res[i]? with
        | some r => applySlot sl r
        | none => sl := by
  induction slots generalizing res i with
  | nil => simp [applyResults]
  | cons sl sls ih =>
    cases res with
    | nil =>
      cases i with
      | zero => simp [applyResults]
      | succ n => simp [applyResults]
    | cons r rs =>
      cases i with
      | zero => simp [applyResults]
      | succ n => simpa [applyResults] using ih rs n

theorem formatRes_module (s : Settings) (isDarwin : Bool) (m : StatsModule)
    (raw : Option Reading) : (formatRes s isDarwin m raw).module = m := rfl

theorem formatRes_tooltip (s : Settings) (isDarwin : Bool) (m : StatsModule)
    (raw : Option Reading) : (formatRes s isDarwin m raw).tooltip = "" := rfl

theorem formatRes_none_text (s : Settings) (isDarwin : Bool) (m : StatsModule) :
    (formatRes s isDarwin m none).text = "-" := by
  cases m <;> rfl

theorem adapterErrored_run (isDarwin : Bool) (o : Outcomes) (m : StatsModule)
    (h : adapterErrored isDarwin o m = true) : adapterRun isDarwin o m = none := by
  obtain ⟨c, l, n, mm, ms, u, un, x, t⟩ := o
  cases m <;> simp only [adapterErrored, isErr, adapterRun] at h ⊢
  case cpuLoad => cases c <;> simp_all [getCpuLoad]
  case loadavg => cases l <;> simp_all [getLoadavg]
  case memoUsage => cases isDarwin <;> cases mm <;> cases ms <;> simp_all [getMemoryUsage]
  case networkSpeed => cases n <;> simp_all [getNetworkSpeed]
  case uptime => cases u <;> simp_all [getUpTime]
  case gpuLoad => cases un <;> simp_all [getGpuLoad, detectPlatform]

theorem disposeAll_live (l : List Slot) :
    (l.map fun sl => { sl with disposed := true }).filter (fun sl => !sl.disposed) = [] := by
  induction l with
  | nil => rfl
  | cons sl sls ih => simp [ih]

/-- The slot written for a non-placeholder result. -/
theorem applySlot_update (sl : Slot) (r : FmtData) (hn : r.text ≠ "-") (ht : r.tooltip = "") :
    applySlot sl r = ⟨r.text, StatsModuleNameMap r.module, true, sl.disposed⟩ := by
  simp [applySlot, hn, ht]

/-! ### Concrete fixtures used by the claim witnesses -/

/-- Two enabled kinds, global flag on. -/
def cfgA : Settings :=
  ⟨true, [.cpuLoad, .uptime], [TmplSeg.ph "percent"], [], [], [], [TmplSeg.ph "minutes"], []⟩

/-- CPU load succeeds, uptime succeeds, everything else throws. -/
def outA : Outcomes :=
  ⟨.ok ⟨natFrac 42⟩, .error (), .error (), .error (), .error (),
   .ok (natFrac 90065), .error (), .error (), .error ()⟩

/-- CPU load throws, uptime succeeds. -/
def outB : Outcomes :=
  ⟨.error (), .error (), .error (), .error (), .error (),
   .ok (natFrac 90065), .error (), .error (), .error ()⟩

/-- A running state with two populated slots. -/
def stB : BarState :=
  ⟨[⟨"41", "CpuLoad", true, false⟩, ⟨"0", "Uptime", true, false⟩], true⟩

/-- All metrics disabled through the global flag. -/
def cfgD : Settings := ⟨false, [.cpuLoad], [], [], [], [], [], []⟩

/-- A dictionary binding only `percent`. -/
def dictE : List (String × DictVal) := [("percent", DictVal.vStr "42")]

/-- Mixed tegrastats output: one line matching the grammar, one not. -/
def tegraOutE : String := "RAM 1024/4096 MB 30%\njunk line"

/-! ### Claims -/

/-- C1: with the global flag on and a nonempty enabled-kind list,
`start` creates exactly one display slot per enabled kind; the tick
result at position `i` is always the formatter of the `i`-th enabled
kind applied to that kind's adapter reading, and when it is not the
placeholder it is written to the slot at position `i` (text, default
tooltip, shown); positions of a duplicate-free enabled-kind list never
share a kind. -/
theorem c1_slot_per_enabled_kind
    (s : Settings) (isDarwin : Bool) (o : Outcomes) (st : BarState)
    (hEn : s.allEnabled = true) (hNe : s.curModules ≠ []) :
    (start s isDarwin o st).statusItems.length = s.curModules.length ∧
    (∀ (i : ℕ) (m : StatsModule), s.curModules[i]? = some m →
      (tickResults s isDarwin o)[i]? =
        some (formatRes s isDarwin m (adapterRun isDarwin o m)) ∧
      ((formatRes s isDarwin m (adapterRun isDarwin o m)).text ≠ "-" →
        (start s isDarwin o st).statusItems[i]? =
          some (Slot.mk (formatRes s isDarwin m (adapterRun isDarwin o m)).text
                (StatsModuleNameMap m) true false))) ∧
    (s.curModules.Nodup → ∀ (i j : ℕ) (mi mj : StatsModule), s.curModules[i]? = some mi →
      s.curModules[j]? = some mj → i ≠ j → mi ≠ mj) := by
  have hguard : ¬(s.allEnabled = false ∨ s.curModules = []) := by
    rintro (h | h)
    · rw [hEn] at h
      exact absurd h (by decide)
    · exact hNe h
  have hstart : start s isDarwin o st =
      getSysInfo s isDarwin o ⟨s.curModules.map fun _ => newSlot, true⟩ := by
    simp only [start]
    rw [if_neg hguard]
  refine ⟨?_, ?_, ?_⟩
  · rw [hstart]
    show (applyResults _ _).length = _
    rw [applyResults_length, List.length_map]
  · intro i m hm
    have htick : (tickResults s isDarwin o)[i]? =
        some (formatRes s isDarwin m (adapterRun isDarwin o m)) := by
      rw [tickResults_getElem?, hm]
      rfl
    refine ⟨htick, fun hne => ?_⟩
    rw [hstart]
    show (applyResults _ _)[i]? = _
    rw [applyResults_getElem?, List.getElem?_map, hm, htick]
    show some (applySlot newSlot _) = _
    rw [applySlot_update _ _ hne (formatRes_tooltip ..)]
    rfl
  · intro hnd i j mi mj hi hj hij heq
    rcases List.getElem?_eq_some_iff.1 hi with ⟨hlt, _⟩
    exact hij (List.getElem?_inj hlt hnd (by rw [hi, hj, heq]))

/-- C1 witness: a concrete start with two enabled kinds. -/
theorem c1_slot_per_enabled_kind_witness :
    (start cfgA true outA ⟨[], false⟩).statusItems.length = cfgA.curModules.length :=
  (c1_slot_per_enabled_kind cfgA true outA ⟨[], false⟩ rfl (by decide)).1

/-- C2: on a tick, a result whose text is the placeholder leaves the
slot at its position completely unchanged (text, tooltip, visibility and
disposal state), while a non-placeholder result writes text and the
kind's default tooltip and shows the slot. -/
theorem c2_placeholder_leaves_slot_untouched
    (s : Settings) (isDarwin : Bool) (o : Outcomes) (st : BarState)
    (i : ℕ) (r : FmtData) (sl : Slot)
    (hr : (tickResults s isDarwin o)[i]? = some r)
    (hsl : st.statusItems[i]? = some sl) :
    (r.text = "-" → (getSysInfo s isDarwin o st).statusItems[i]? = some sl) ∧
    (r.text ≠ "-" → (getSysInfo s isDarwin o st).statusItems[i]? =
      some (Slot.mk r.text (StatsModuleNameMap r.module) true sl.disposed)) := by
  have happ : (getSysInfo s isDarwin o st).statusItems[i]? = some (applySlot sl r) := by
    show (applyResults _ _)[i]? = _
    rw [applyResults_getElem?, hsl, hr]
    rfl
  have htool : r.tooltip = "" := by
    have h2 : (s.curModules[i]?).map
        (fun m => formatRes s isDarwin m (adapterRun isDarwin o m)) = some r := by
      rw [← tickResults_getElem?]
      exact hr
    rcases Option.map_eq_some'.1 h2 with ⟨m, _, hfm⟩
    rw [← hfm]
    exact formatRes_tooltip ..
  constructor
  · intro hph
    rw [happ]
    simp [applySlot, hph]
  · intro hne
    rw [happ, applySlot_update sl r hne htool]

/-- C2 witness: with the CPU adapter failing, the first slot of a
running state keeps its previous content on the next tick. -/
theorem c2_placeholder_leaves_slot_untouched_witness :
    (getSysInfo cfgA true outB stB).statusItems[0]? =
      some ⟨"41", "CpuLoad", true, false⟩ :=
  (c2_placeholder_leaves_slot_untouched cfgA true outB stB 0
    (formatRes cfgA true .cpuLoad none) ⟨"41", "CpuLoad", true, false⟩
    (by decide) (by decide)).1 (by decide)

/-- C3: every adapter maps a thrown underlying call to `none` instead of
propagating it; a kind whose underlying call threw formats to the
placeholder; and on such a tick every position whose result is not the
placeholder is still written and shown. -/
theorem c3_adapters_swallow_errors
    (s : Settings) (isDarwin : Bool) (o : Outcomes) (st : BarState) :
    (∀ e : Unit, getCpuLoad (.error e) = none ∧ getLoadavg (.error e) = none ∧
      getNetworkSpeed (.error e) = none ∧ getUpTime (.error e) = none ∧
      (∀ oSi, getMemoryUsage true (.error e) oSi = none) ∧
      (∀ oMac, getMemoryUsage false oMac (.error e) = none) ∧
      (∀ ox ot, getGpuLoad (.error e) ox ot = none)) ∧
    (∀ m : StatsModule, adapterErrored isDarwin o m = true →
      (formatRes s isDarwin m (adapterRun isDarwin o m)).text = "-") ∧
    (∀ (j : ℕ) (r : FmtData) (sl : Slot),
      (tickResults s isDarwin o)[j]? = some r → r.text ≠ "-" →
      st.statusItems[j]? = some sl →
      (getSysInfo s isDarwin o st).statusItems[j]? =
        some (Slot.mk r.text (StatsModuleNameMap r.module) true sl.disposed)) := by
  refine ⟨fun e => ⟨rfl, rfl, rfl, rfl, fun oSi => rfl, fun oMac => ?_, fun ox ot => rfl⟩,
    ?_, ?_⟩
  · cases oMac <;> rfl
  · intro m hm
    rw [adapterErrored_run isDarwin o m hm]
    exact formatRes_none_text ..
  · intro j r sl hr hne hsl
    have happ : (getSysInfo s isDarwin o st).statusItems[j]? = some (applySlot sl r) := by
      show (applyResults _ _)[j]? = _
      rw [applyResults_getElem?, hsl, hr]
      rfl
    have h2 : (s.curModules[j]?).map
        (fun m => formatRes s isDarwin m (adapterRun isDarwin o m)) = some r := by
      rw [← tickResults_getElem?]
      exact hr
    rcases Option.map_eq_some'.1 h2 with ⟨m, _, hfm⟩
    have htool : r.tooltip = "" := by
      rw [← hfm]
      exact formatRes_tooltip ..
    rw [happ, applySlot_update sl r hne htool]

/-- C3 witness: on a tick where the CPU adapter throws, the uptime slot
is still updated. -/
theorem c3_adapters_swallow_errors_witness :
    adapterErrored true outB StatsModule.cpuLoad = true ∧
    (getSysInfo cfgA true outB stB).statusItems[1]? =
      some ⟨"1", "Uptime", true, false⟩ :=
  ⟨by decide,
    (c3_adapters_swallow_errors cfgA true outB stB).2.2 1
      (formatRes cfgA true .uptime (some (.num (natFrac 90065))))
      ⟨"0", "Uptime", true, false⟩ (by decide) (by decide) (by decide)⟩

/-- C7: when the global flag is off or no kind is enabled, both `init`
and a configuration change end in the idle state: no live display slot
and no armed timer. -/
theorem c7_disabled_ends_idle
    (s : Settings) (isDarwin : Bool) (o : Outcomes) (st : BarState)
    (h : s.allEnabled = false ∨ s.curModules = []) :
    liveSlots (initDriver s isDarwin o) = [] ∧
    (initDriver s isDarwin o).timerActive = false ∧
    liveSlots (onSettingUpdate s isDarwin o st) = [] ∧
    (onSettingUpdate s isDarwin o st).timerActive = false := by
  have hstart : ∀ st0 : BarState, start s isDarwin o st0 =
      { st0 with statusItems := st0.statusItems.map fun sl => { sl with disposed := true } } := by
    intro st0
    simp only [start]
    rw [if_pos h]
  refine ⟨?_, ?_, ?_, ?_⟩
  · rw [initDriver, hstart]
    rfl
  · rw [initDriver, hstart]
  · rw [onSettingUpdate, hstart]
    exact disposeAll_live _
  · rw [onSettingUpdate, hstart]
    rfl

/-- C7 witness: a disabled configuration leaves a running state idle. -/
theorem c7_disabled_ends_idle_witness :
    liveSlots (onSettingUpdate cfgD true outA stB) = [] ∧
    (onSettingUpdate cfgD true outA stB).timerActive = false :=
  ⟨(c7_disabled_ends_idle cfgD true outA stB (Or.inl rfl)).2.2.1,
   (c7_disabled_ends_idle cfgD true outA stB (Or.inl rfl)).2.2.2⟩

/-- C4: the memoUsage dictionary converts the Darwin `used` counter and
`total` to gibibytes (base 1024³) with two decimals, computes `percent`
as used/total×100 rounded to an integer — the ratio being taken of the
two placeholder values just rendered — and `pressurePercent` as the
pressure ratio ×100 rounded to an integer, defaulting to 0 when the
field is absent; on the claim's concrete reading the dictionary carries
percent "50", pressurePercent "50" and unit "GB". -/
theorem c4_memo_usage_dict :
    (∀ (r : MemInfo) (tmpl : Tmpl),
      formatMemoUsage true tmpl (some r) =
        renderTemplate (formatByDict tmpl (memoUsageDict true r)) ∧
      memoUsageDict true r =
        [("used", .vStr (qToFixed (r.used / natFrac (1024 * 1024 * 1024)) 2)),
         ("total", .vStr (qToFixed (r.total / natFrac (1024 * 1024 * 1024)) 2)),
         ("unit", .vStr "GB"),
         ("percent", .vStr (qToFixed
           (roundDec (r.used / natFrac (1024 * 1024 * 1024)) 2 /
              roundDec (r.total / natFrac (1024 * 1024 * 1024)) 2 * 100) 0)),
         ("pressurePercent", .vStr (qToFixed ((r.pressurePercent.getD 0) * 100) 0))]) ∧
    memoUsageDict true
        ⟨natFrac (16 * 1024 * 1024 * 1024), natFrac (8 * 1024 * 1024 * 1024),
         natFrac 0, some halfFrac⟩ =
      [("used", .vStr "8.00"), ("total", .vStr "16.00"), ("unit", .vStr "GB"),
       ("percent", .vStr "50"), ("pressurePercent", .vStr "50")] := by
  exact ⟨fun r tmpl => ⟨rfl, rfl⟩, by decide⟩

/-- C5: the gpuLoad formatter yields the placeholder on a missing or
empty GPU list; otherwise it uses only the first GPU, with `percent`
the utilization rounded to the nearest integer and `used`/`total` the
memory values divided by 1024 rendered with two decimals, unit GB. -/
theorem c5_gpu_load_formatter :
    (∀ tmpl : Tmpl, formatGpuLoad tmpl none = "-" ∧ formatGpuLoad tmpl (some []) = "-") ∧
    (∀ (tmpl : Tmpl) (g : GpuInfo) (gs : List GpuInfo),
      formatGpuLoad tmpl (some (g :: gs)) =
        renderTemplate (formatByDict tmpl (gpuDict g))) ∧
    (∀ g : GpuInfo, gpuDict g =
      [("percent", .vNum (g.gpuUtilization.map fun q => intFrac (jsMathRound q))),
       ("unit", .vStr "GB"),
       ("used", .vStr (match g.usedMemory with
         | some q => qToFixed (q / 1024) 2
         | none => "NaN")),
       ("total", .vStr (match g.totalMemory with
         | some q => qToFixed (q / 1024) 2
         | none => "NaN"))]) ∧
    gpuDict ⟨some (natFrac 8192), some (natFrac 1024), some ⟨61, 2⟩⟩ =
      [("percent", .vNum (some (intFrac 31))), ("unit", .vStr "GB"),
       ("used", .vStr "1.00"), ("total", .vStr "8.00")] := by
  refine ⟨fun tmpl => ⟨rfl, rfl⟩, fun tmpl g gs => rfl, ?_, by decide⟩
  intro g
  obtain ⟨t, u, gu⟩ := g
  cases t <;> cases u <;> rfl

/-- C6: the loadavg dictionary maps `1`/`5`/`15` to the 1/5/15-minute
averages rendered with two decimals, a missing entry defaulting to the
number 0; on the reading `[1.234, 0.5, undefined]` it is
`{'1': "1.23", '5': "0.50", '15': 0}`. -/
theorem c6_loadavg_dict :
    (∀ (tmpl : Tmpl) (l : List (Option Frac)),
      formatLoadavg tmpl (some l) = renderTemplate (formatByDict tmpl (loadavgDict l))) ∧
    (∀ l : List (Option Frac), loadavgDict l =
      [("1", match (l.get? 0).bind id with
         | some q => .vStr (qToFixed q 2)
         | none => .vNum (some 0)),
       ("5", match (l.get? 1).bind id with
         | some q => .vStr (qToFixed q 2)
         | none => .vNum (some 0)),
       ("15", match (l.get? 2).bind id with
         | some q => .vStr (qToFixed q 2)
         | none => .vNum (some 0))]) ∧
    loadavgDict [some ⟨1234, 1000⟩, some ⟨1, 2⟩, none] =
      [("1", .vStr "1.23"), ("5", .vStr "0.50"), ("15", .vNum (some 0))] := by
  exact ⟨fun tmpl l => rfl, fun l => rfl, by decide⟩

/-- C10: a successfully fetched reading that is exactly 0 is formatted
as the placeholder for the cpuLoad and uptime kinds, because the
formatter tests the raw value for truthiness: the adapters report
`some 0`, yet the formatted text is "-" for every template. -/
theorem c10_zero_reading_formats_as_placeholder :
    getCpuLoad (.ok ⟨natFrac 0⟩) = some (natFrac 0) ∧
    getUpTime (.ok (natFrac 0)) = some (natFrac 0) ∧
    (∀ tmpl : Tmpl, formatCpuLoad tmpl (some (natFrac 0)) = "-") ∧
    (∀ tmpl : Tmpl, formatUptime tmpl (some (natFrac 0)) = "-") := by
  exact ⟨rfl, rfl, fun tmpl => rfl, fun tmpl => rfl⟩

/-- C9: `formatByDict` leaves a template with no placeholder segment
unchanged; when every placeholder of the template is bound in the
dictionary, the output has no placeholder left; each bound placeholder
occurrence is replaced in place by its dictionary value and literal
segments are preserved in place. -/
theorem c9_format_by_dict_substitution (t : Tmpl) (dict : List (String × DictVal)) :
    ((∀ seg ∈ t, seg.isLit = true) → formatByDict t dict = t) ∧
    ((∀ n : String, TmplSeg.ph n ∈ t → (dict.lookup n).isSome = true) →
      ∀ seg ∈ formatByDict t dict, seg.isLit = true) ∧
    (∀ (i : ℕ) (n : String) (v : DictVal), t[i]? = some (TmplSeg.ph n) →
      dict.lookup n = some v →
      (formatByDict t dict)[i]? = some (TmplSeg.lit (renderVal v))) ∧
    (∀ (i : ℕ) (s : String), t[i]? = some (TmplSeg.lit s) →
      (formatByDict t dict)[i]? = some (TmplSeg.lit s)) := by
  refine ⟨?_, ?_, ?_, ?_⟩
  · intro h
    induction t with
    | nil => rfl
    | cons seg rest ih =>
      have hrest := ih fun sg hsg => h sg (List.mem_cons_of_mem _ hsg)
      cases seg with
      | lit s =>
        show TmplSeg.lit s :: formatByDict rest dict = _
        rw [hrest]
      | ph n =>
        have := h _ (List.mem_cons_self _ _)
        simp [TmplSeg.isLit] at this
  · intro h seg hseg
    rcases List.mem_map.1 hseg with ⟨a, ha, hfa⟩
    cases a with
    | lit s =>
      rw [← hfa]
      rfl
    | ph n =>
      rcases Option.isSome_iff_exists.1 (h n ha) with ⟨v, hv⟩
      rw [← hfa]
      show (match dict.lookup n with
        | some v => TmplSeg.lit (renderVal v)
        | none => TmplSeg.ph n).isLit = true
      rw [hv]
      rfl
  · intro i n v hi hv
    rw [formatByDict, List.getElem?_map, hi]
    show some (match dict.lookup n with
      | some v => TmplSeg.lit (renderVal v)
      | none => TmplSeg.ph n) = some (TmplSeg.lit (renderVal v))
    rw [hv]
  · intro i s hi
    rw [formatByDict, List.getElem?_map, hi]
    rfl

/-- C9 witness: a placeholder-free template is returned verbatim, and a
bound placeholder is substituted. -/
theorem c9_format_by_dict_substitution_witness :
    formatByDict [TmplSeg.lit "up "] dictE = [TmplSeg.lit "up "] ∧
    (formatByDict [TmplSeg.ph "percent"] dictE)[0]? = some (TmplSeg.lit "42") :=
  ⟨(c9_format_by_dict_substitution [TmplSeg.lit "up "] dictE).1 (by decide),
   (c9_format_by_dict_substitution [TmplSeg.ph "percent"] dictE).2.2.1 0 "percent"
     (DictVal.vStr "42") (by decide) (by decide)⟩

/-- C8 counterexample: in the NVIDIA path a line that does not match the
CSV grammar does not yield "no value" for that line — it is kept in the
batch as a reading whose numeric fields are all `NaN`. -/
theorem c8_counterexample_nvidia_keeps_malformed_line :
    getX86GpuInfo (.ok ⟨"8192, 1024, 50\noops", ""⟩) =
      some [⟨some (natFrac 8192), some (natFrac 1024), some (natFrac 50)⟩,
            ⟨none, none, none⟩] ∧
    getX86GpuInfo (.ok ⟨"8192, 1024, 50\noops", ""⟩) ≠
      some [⟨some (natFrac 8192), some (natFrac 1024), some (natFrac 50)⟩] := by
  exact ⟨by decide, by decide⟩

/-- C8 amended: in the Tegra path a line that does not match the
`used/total MB percent%` grammar yields "no value" and is dropped while
every matching line of the batch is still parsed; in the NVIDIA path no
line is dropped — the batch has exactly one reading per line, a
malformed line producing a reading whose fields are `NaN` rather than
"no value" for the line. -/
theorem c8_gpu_line_grammar (stdout : String) (gs rs : List GpuInfo)
    (hT : getTegraInfo (.ok ⟨stdout, ""⟩) = some gs)
    (hX : getX86GpuInfo (.ok ⟨stdout, ""⟩) = some rs) :
    (∀ g ∈ gs, ∃ line ∈ splitSeq ['\n'] (trimChars stdout.toList),
      tegraParseLine line = some g) ∧
    (∀ line ∈ splitSeq ['\n'] (trimChars stdout.toList), ∀ g : GpuInfo,
      tegraParseLine line = some g → g ∈ gs) ∧
    rs.length = (splitSeq ['\n'] (trimChars stdout.toList)).length ∧
    (∀ (i : ℕ) (line : List Char),
      (splitSeq ['\n'] (trimChars stdout.toList))[i]? = some line →
      rs[i]? = some (parseX86Line line)) := by
  have hgs : gs = ((splitSeq ['\n'] (trimChars stdout.toList)).map tegraParseLine).reduceOption := by
    have : getTegraInfo (.ok ⟨stdout, ""⟩) =
        some (((splitSeq ['\n'] (trimChars stdout.toList)).map tegraParseLine).reduceOption) := rfl
    rw [this] at hT
    exact (Option.some_inj.1 hT).symm
  have hrs : rs = (splitSeq ['\n'] (trimChars stdout.toList)).map parseX86Line := by
    have : getX86GpuInfo (.ok ⟨stdout, ""⟩) =
        some ((splitSeq ['\n'] (trimChars stdout.toList)).map parseX86Line) := rfl
    rw [this] at hX
    exact (Option.some_inj.1 hX).symm
  refine ⟨?_, ?_, ?_, ?_⟩
  · intro g hg
    rw [hgs] at hg
    have := List.reduceOption_mem_iff.1 hg
    rcases List.mem_map.1 this with ⟨line, hline, hparse⟩
    exact ⟨line, hline, hparse⟩
  · intro line hline g hparse
    rw [hgs]
    exact List.reduceOption_mem_iff.2 (hparse ▸ List.mem_map_of_mem tegraParseLine hline)
  · rw [hrs, List.length_map]
  · intro i line hi
    rw [hrs, List.getElem?_map, hi]
    rfl

/-- C8 witness: on concrete mixed output the matching tegrastats line is
parsed and present. -/
theorem c8_gpu_line_grammar_witness :
    ∃ line ∈ splitSeq ['\n'] (trimChars tegraOutE.toList),
      tegraParseLine line = some ⟨some (natFrac 4096), some (natFrac 1024), some (natFrac 30)⟩ :=
  (c8_gpu_line_grammar tegraOutE
      [⟨some (natFrac 4096), some (natFrac 1024), some (natFrac 30)⟩]
      [⟨none, none, none⟩, ⟨none, none, none⟩]
      (by decide) (by decide)).1 _ (by decide)
